import Mathlib

/-!
Verification development for a small credential-storage HTTP backend
(`main.py`).  The service exposes greeting endpoints, a database
diagnostic endpoint (`/test`), and create/list endpoints over a single
document collection named "credential".  The document-store gateway
(`database.py`) and the pydantic schemas (`schemas.py`) are not part of
the source tree; they are modelled from the specification where needed.
-/

namespace CredService

abbrev Chars := List Char

/-! ### Model of the store-side regular-expression filter

`list_credentials` builds the Mongo filter
`{"$or": [{"title": {"$regex": q, "$options": "i"}},
          {"username": {"$regex": q, "$options": "i"}}]}`.
The store interprets `q` as a PCRE regular expression searched
case-insensitively anywhere in the field.  We model the PCRE core
subset consisting of literal characters, `.` (any character) and `*`
(zero or more repetitions of the preceding single-character atom);
patterns using other metacharacters are outside the model and are
treated as matching nothing. -/

/-- A single-character regex atom: a literal character or `.`. -/
inductive Atom
  | lit (c : Char)
  | dot
deriving DecidableEq, Repr

/-- A regex token: a plain atom or a starred atom. -/
inductive Tok
  | atom (a : Atom)
  | star (a : Atom)
deriving DecidableEq, Repr

/-- Does an atom match one character? -/
def atomMatch : Atom → Char → Bool
  | .lit c, x => x == c
  | .dot, _ => true

/-- PCRE metacharacters `$ ( ) * + . ? [ \ ] ^ { | }` (by code point). -/
def specialChar (c : Char) : Bool :=
  let n := c.toNat
  n == 36 || n == 40 || n == 41 || n == 42 || n == 43 || n == 46 || n == 63 ||
  n == 91 || n == 92 || n == 93 || n == 94 || n == 123 || n == 124 || n == 125

/-- Parse one pattern character as an atom: `.` is the any-character
atom, other metacharacters are outside the modelled subset, anything
else is a literal. -/
def parseAtom (c : Char) : Option Atom :=
  if c.toNat == 46 then some Atom.dot
  else if specialChar c then none
  else some (Atom.lit c)

/-- Emit a pending (not yet starred) atom. -/
def flushPend : Option Atom → List Tok
  | none => []
  | some a => [Tok.atom a]

/-- Left-to-right pattern parser; `pend` is the previous atom, kept
pending because a following `*` would attach to it.  `*` with no
preceding atom is a PCRE error, modelled as a parse failure. -/
def parsePatAux (pend : Option Atom) : Chars → Option (List Tok)
  | [] => some (flushPend pend)
  | c :: rest =>
    if c.toNat == 42 then
      match pend with
      | none => none
      | some a => (parsePatAux none rest).map (fun ts => Tok.star a :: ts)
    else
      match parseAtom c with
      | none => none
      | some a => (parsePatAux (some a) rest).map (fun ts => flushPend pend ++ ts)

/-- Parse a whole pattern into a token list. -/
def parsePat (w : Chars) : Option (List Tok) := parsePatAux none w

/-- Fuel-indexed matcher: does some prefix of `s` match the whole token
list `ts`?  The fuel only serves termination; `matchPre` below always
supplies enough. -/
def matchPreF : Nat → List Tok → Chars → Bool
  | 0, _, _ => false
  | _ + 1, [], _ => true
  | _ + 1, .atom _ :: _, [] => false
  | f + 1, .atom a :: ts, x :: xs => atomMatch a x && matchPreF f ts xs
  | f + 1, .star _ :: ts, [] => matchPreF f ts []
  | f + 1, .star a :: ts, x :: xs =>
      matchPreF f ts (x :: xs) || (atomMatch a x && matchPreF f (.star a :: ts) xs)

/-- Does some prefix of `s` match the whole token list `ts`? -/
def matchPre (ts : List Tok) (s : Chars) : Bool :=
  matchPreF (ts.length + s.length + 1) ts s

/-- Unanchored search: does `ts` match starting at some position of `s`? -/
def searchFrom (ts : List Tok) : Chars → Bool
  | [] => matchPre ts []
  | x :: xs => matchPre ts (x :: xs) || searchFrom ts xs

/-- Lower-case a character sequence (ASCII folding, as `Char.toLower`). -/
def lowerChars (s : Chars) : Chars := s.map Char.toLower

/-- Modelled from the spec: the store's case-insensitive `$regex`
match used by `get_documents` for the filter built in
`list_credentials` (`database.py` is not in the source tree).  The
pattern is searched, case-insensitively, anywhere in the field value;
modelled for the PCRE core subset of `parsePat`. -/
def mongoRegexMatchI (pat s : String) : Bool :=
  match parsePat (lowerChars pat.data) with
  | some ts => searchFrom ts (lowerChars s.data)
  | none => false

/-- Substring test on character lists: is `needle` a contiguous
infix of `hay`? -/
def containsSub (needle : Chars) : Chars → Bool
  | [] => needle.isPrefixOf []
  | x :: xs => needle.isPrefixOf (x :: xs) || containsSub needle xs

/-- Case-insensitive substring test on strings: the notion of
"contains `q` as a case-insensitive substring" used by the spec. -/
def strContainsCI (needle hay : String) : Bool :=
  containsSub (lowerChars needle.data) (lowerChars hay.data)

/-! ### Data model

`schemas.py` is not in the source tree; `Credential` and
`CredentialOut` are modelled from the spec's data-model section.
Stored documents carry the fields the spec names, each optional, plus
the store-assigned identifier. -/

/-- Zero-pad a number to two digits, as Python's `datetime` rendering. -/
def pad2 (n : Nat) : String := if n < 10 then "0" ++ toString n else toString n

/-- Zero-pad a number to four digits, as Python's `datetime` rendering. -/
def pad4 (n : Nat) : String :=
  if n < 10 then "000" ++ toString n
  else if n < 100 then "00" ++ toString n
  else if n < 1000 then "0" ++ toString n
  else toString n

/-- A decodable instant, as the `datetime` values the store hands back. -/
structure PyDateTime where
  year : Nat
  month : Nat
  day : Nat
  hour : Nat
  minute : Nat
  second : Nat
deriving DecidableEq, Repr

/-- `datetime.isoformat()`: the ISO-8601 text rendering of the instant. -/
def PyDateTime.isoformat (d : PyDateTime) : String :=
  pad4 d.year ++ "-" ++ pad2 d.month ++ "-" ++ pad2 d.day ++ "T" ++
  pad2 d.hour ++ ":" ++ pad2 d.minute ++ ":" ++ pad2 d.second

/-- A stored timestamp-field value: either a decodable instant or some
other (malformed) value, modelled as text. -/
inductive TVal
  | dt (d : PyDateTime)
  | raw (s : String)
deriving DecidableEq, Repr

/-- Python truthiness of a stored timestamp value: instants are always
truthy, other values by their own truthiness (empty text is falsy). -/
def TVal.truthy : TVal → Bool
  | .dt _ => true
  | .raw s => !s.data.isEmpty

/-- The message of the `AttributeError` raised by `.isoformat()` on a
non-`datetime` value. -/
def pyAttrErrMsg : String := "'str' object has no attribute 'isoformat'"

/-- Calling `.isoformat()` on a stored value: succeeds on an instant,
raises `AttributeError` otherwise. -/
def TVal.isoformatCall : TVal → Except String String
  | .dt d => .ok d.isoformat
  | .raw _ => .error pyAttrErrMsg

/-- A raw document of the "credential" collection. -/
structure StoredDoc where
  _id : Option String
  title : Option String
  username : Option String
  password : Option String
  url : Option String
  note : Option String
  created_at : Option TVal
  updated_at : Option TVal
deriving DecidableEq, Repr

/-- Python's `str(doc.get("_id"))`: the identifier's text when present,
the literal text `"None"` when absent. -/
def pyStrOfOptId : Option String → String
  | none => "None"
  | some s => s

/-- Modelled from the spec: `schemas.py`'s `Credential` input shape —
title, username, password required text, url and note optional. -/
structure Credential where
  title : String
  username : String
  password : String
  url : Option String := none
  note : Option String := none
deriving DecidableEq, Repr

/-- Modelled from the spec: `schemas.py`'s `CredentialOut` output shape;
every field below is always present on an output object. -/
structure CredentialOut where
  id : String
  title : String
  username : String
  password : String
  url : Option String
  note : Option String
  created_at : Option String
  updated_at : Option String
deriving DecidableEq, Repr

/-- `doc.get("created_at").isoformat() if doc.get("created_at") else None`:
absent or falsy value gives `none`; a truthy value has `.isoformat()`
called on it, which raises unless it is an instant. -/
def timestampOut : Option TVal → Except String (Option String)
  | none => .ok none
  | some v => if v.truthy then v.isoformatCall.map some else .ok none

/-- The `to_out` mapping of `list_credentials` (`main.py`), with the
possible `AttributeError` made explicit in `Except`. -/
def to_out (doc : StoredDoc) : Except String CredentialOut := do
  let created ← timestampOut doc.created_at
  let updated ← timestampOut doc.updated_at
  pure { id := pyStrOfOptId doc._id,
         title := doc.title.getD "",
         username := doc.username.getD "",
         password := doc.password.getD "",
         url := doc.url,
         note := doc.note,
         created_at := created,
         updated_at := updated }

/-! ### Store gateway model -/

/-- The filter expressions `list_credentials` builds: the empty filter
(match all), or the `$or` of two case-insensitive regex matches on
title and username. -/
inductive Filter
  | all
  | orRegexI (q : String)
deriving DecidableEq, Repr

/-- Whether a document satisfies a filter; a regex never matches a
document in which the field is absent. -/
def matchFilter (f : Filter) (d : StoredDoc) : Bool :=
  match f with
  | .all => true
  | .orRegexI pat =>
    (match d.title with | some t => mongoRegexMatchI pat t | none => false) ||
    (match d.username with | some u => mongoRegexMatchI pat u | none => false)

/-- The store's state: documents tagged with their collection name, and
a counter from which fresh identifiers are assigned. -/
structure Store where
  docs : List (String × StoredDoc)
  nextId : Nat
deriving DecidableEq, Repr

/-- The documents of one collection. -/
def collectionDocs (st : Store) (coll : String) : List StoredDoc :=
  (st.docs.filter (fun p => p.1 == coll)).map (fun p => p.2)

/-- Modelled from the spec: `database.py`'s
`get_documents(collection, filter)` — empty filter means match all,
returns the full sequence of matching raw documents, propagates any
underlying store error (`storeFail`) to the caller. -/
def get_documents (storeFail : Option String) (st : Store) (coll : String) (f : Filter) :
    Except String (List StoredDoc) :=
  match storeFail with
  | some m => .error m
  | none => .ok ((collectionDocs st coll).filter (matchFilter f))

/-- Serialization of a `Credential` to the store's document shape,
with the store-assigned identifier. -/
def docOfCredential (id : String) (c : Credential) : StoredDoc :=
  { _id := some id, title := some c.title, username := some c.username,
    password := some c.password, url := c.url, note := c.note,
    created_at := none, updated_at := none }

/-- Modelled from the spec: `database.py`'s
`create_document(collection, record)` — serializes the record and
inserts it, returning the store-assigned identifier as text; on an
underlying store error (`storeFail`) it propagates the error and the
store is unchanged. -/
def create_document (storeFail : Option String) (st : Store) (coll : String) (c : Credential) :
    Except String (Store × String) :=
  match storeFail with
  | some m => .error m
  | none =>
    let id := toString st.nextId
    .ok ({ docs := st.docs ++ [(coll, docOfCredential id c)], nextId := st.nextId + 1 }, id)

/-! ### HTTP endpoints (`main.py`) -/

/-- An endpoint outcome: a 200 body, or an `HTTPException` carrying a
status code and a `detail` text. -/
inductive Resp (α : Type)
  | ok (body : α)
  | httpError (status : Nat) (detail : String)
deriving DecidableEq, Repr

/-- The HTTP status code of an outcome. -/
def Resp.statusCode : Resp α → Nat
  | .ok _ => 200
  | .httpError s _ => s

/-- A greeting payload `{"message": ...}`. -/
structure Message where
  message : String
deriving DecidableEq, Repr

/-- `GET /` (`read_root` in `main.py`). -/
def read_root : Resp Message := .ok { message := "Hello from FastAPI Backend!" }

/-- `GET /api/hello` (`hello` in `main.py`). -/
def hello : Resp Message := .ok { message := "Hello from the backend API!" }

/-- The response model of `POST /api/credentials`: the newly assigned
identifier only. -/
structure CreateResponse where
  id : String
deriving DecidableEq, Repr

/-- `POST /api/credentials` (`create_credential` in `main.py`): one
`create_document` call into collection "credential"; any exception is
turned into a 500 `HTTPException` with the stringified error as detail.
Returns the store state after the call alongside the response. -/
def create_credential (storeFail : Option String) (st : Store) (credential : Credential) :
    Store × Resp CreateResponse :=
  match create_document storeFail st "credential" credential with
  | .ok (st2, inserted_id) => (st2, .ok { id := inserted_id })
  | .error e => (st, .httpError 500 e)

/-- Python truthiness of the optional query parameter `q`: `None` and
the empty string are falsy. -/
def qTruthy : Option String → Bool
  | none => false
  | some s => !s.data.isEmpty

/-- The filter `list_credentials` builds: `{}` unless `q` is truthy, in
which case the case-insensitive `$or` regex filter on title/username. -/
def credFilter (q : Option String) : Filter :=
  if qTruthy q then .orRegexI (q.getD "") else .all

/-- `GET /api/credentials` (`list_credentials` in `main.py`): builds the
filter from `q`, fetches the documents, maps each through `to_out`; any
exception becomes a 500 `HTTPException` with the stringified error. -/
def list_credentials (storeFail : Option String) (st : Store) (q : Option String) :
    Resp (List CredentialOut) :=
  match get_documents storeFail st "credential" (credFilter q) with
  | .error e => .httpError 500 e
  | .ok docs =>
    match docs.mapM to_out with
    | .error e => .httpError 500 e
    | .ok outs => .ok outs

/-! ### Diagnostic endpoint `GET /test` -/

/-- The possible outcomes of the store probes in `test_database`:
importing the database module fails, the import (or anything in the
`try` body) raises some other exception, the handle `db` is `None`, or
the handle is present with an optional `name` attribute and a
collection listing that either succeeds or raises. -/
inductive DbState
  | importError
  | importRaise (msg : String)
  | dbNone
  | dbUp (name : Option String) (colls : Except String (List String))
deriving Repr

/-- The fixed-shape payload of `GET /test`.  (In the source the two
env-var fields start out as `None`, but they are unconditionally
overwritten with text before the handler returns.) -/
structure TestResponse where
  backend : String
  database : String
  database_url : String
  database_name : String
  connection_status : String
  collections : List String
deriving DecidableEq, Repr

/-- `GET /test` (`test_database` in `main.py`): a total function — every
probe failure is folded into the `database` text (error messages
truncated to 50 characters) and the status is always 200. -/
def test_database (st : DbState) (urlSet nameSet : Bool) : Nat × TestResponse :=
  let base : TestResponse :=
    { backend := "✅ Running", database := "❌ Not Available", database_url := "",
      database_name := "", connection_status := "Not Connected", collections := [] }
  let r :=
    match st with
    | .importError =>
      { base with database := "❌ Database module not found (run enable-database first)" }
    | .importRaise m => { base with database := "❌ Error: " ++ m.take 50 }
    | .dbNone => { base with database := "⚠️  Available but not initialized" }
    | .dbUp nm colls =>
      let r1 := { base with
                  database := "✅ Available", database_url := "✅ Configured",
                  database_name := nm.getD "✅ Connected", connection_status := "Connected" }
      match colls with
      | .ok cs => { r1 with collections := cs.take 10, database := "✅ Connected & Working" }
      | .error m => { r1 with database := "⚠️  Connected but Error: " ++ m.take 50 }
  (200,
   { r with
     database_url := if urlSet then "✅ Set" else "❌ Not Set",
     database_name := if nameSet then "✅ Set" else "❌ Not Set" })

/-- The spec's words for the timestamp outputs (claim C3): the
ISO-8601 text rendering of the stored value when it is present as a
decodable instant, null otherwise.  Stated from the spec, to be
compared with what `to_out` actually does. -/
def specTimestampText : Option TVal → Option String
  | some (TVal.dt t) => some t.isoformat
  | _ => none

/-! ### Lemmas: the regex model on metacharacter-free patterns is
exactly case-insensitive substring search -/

theorem matchPreF_lits (w : Chars) : ∀ (f : Nat) (s : Chars), w.length < f →
    (matchPreF f (w.map (fun c => Tok.atom (Atom.lit c))) s = true ↔ w <+: s) := by
  induction w with
  | nil =>
    intro f s hf
    cases f with
    | zero => omega
    | succ f => simp [matchPreF]
  | cons c w ih =>
    intro f s hf
    cases f with
    | zero => omega
    | succ f =>
      cases s with
      | nil => simp [matchPreF]
      | cons x xs =>
        have hf' : w.length < f := by
          simp only [List.length_cons] at hf
          omega
        simp only [List.map_cons, matchPreF, atomMatch, Bool.and_eq_true, beq_iff_eq,
          ih f xs hf', List.cons_prefix_cons]
        constructor
        · rintro ⟨h1, h2⟩; exact ⟨h1.symm, h2⟩
        · rintro ⟨h1, h2⟩; exact ⟨h1.symm, h2⟩

theorem matchPre_lits (w s : Chars) :
    matchPre (w.map (fun c => Tok.atom (Atom.lit c))) s = true ↔ w <+: s := by
  apply matchPreF_lits
  rw [List.length_map]
  omega

theorem searchFrom_iff (ts : List Tok) : ∀ s : Chars,
    searchFrom ts s = true ↔ ∃ t, t <:+ s ∧ matchPre ts t = true := by
  intro s
  induction s with
  | nil => simp [searchFrom, List.suffix_nil]
  | cons x xs ih =>
    simp only [searchFrom, Bool.or_eq_true, ih, List.suffix_cons_iff]
    constructor
    · rintro (h | ⟨t, ht, hm⟩)
      · exact ⟨x :: xs, Or.inl rfl, h⟩
      · exact ⟨t, Or.inr ht, hm⟩
    · rintro ⟨t, ht | ht, hm⟩
      · subst ht
        exact Or.inl hm
      · exact Or.inr ⟨t, ht, hm⟩

theorem searchFrom_lits (w s : Chars) :
    searchFrom (w.map (fun c => Tok.atom (Atom.lit c))) s = true ↔ w <:+: s := by
  rw [searchFrom_iff, List.infix_iff_prefix_suffix]
  constructor
  · rintro ⟨t, ht, hm⟩
    exact ⟨t, (matchPre_lits w t).mp hm, ht⟩
  · rintro ⟨t, hp, ht⟩
    exact ⟨t, ht, (matchPre_lits w t).mpr hp⟩

theorem containsSub_iff (w : Chars) : ∀ s : Chars, containsSub w s = true ↔ w <:+: s := by
  intro s
  induction s with
  | nil => simp [containsSub]
  | cons x xs ih =>
    simp [containsSub, ih, List.infix_cons_iff]

theorem specialChar_components {c : Char} (h : specialChar c = false) :
    (c.toNat == 42) = false ∧ (c.toNat == 46) = false := by
  unfold specialChar at h
  simp only [Bool.or_eq_false_iff] at h
  obtain ⟨⟨⟨⟨⟨⟨⟨⟨⟨⟨⟨⟨⟨h36, h40⟩, h41⟩, h42⟩, h43⟩, h46⟩, h63⟩, h91⟩, h92⟩, h93⟩,
    h94⟩, h123⟩, h124⟩, h125⟩ := h
  exact ⟨h42, h46⟩

theorem parseAtom_plain {c : Char} (h : specialChar c = false) :
    parseAtom c = some (Atom.lit c) := by
  have h46 := (specialChar_components h).2
  simp [parseAtom, h46, h]

theorem parsePatAux_plain (w : Chars) : ∀ pend : Option Atom,
    (∀ c ∈ w, specialChar c = false) →
    parsePatAux pend w =
      some (flushPend pend ++ w.map (fun c => Tok.atom (Atom.lit c))) := by
  induction w with
  | nil => intro pend _; simp [parsePatAux]
  | cons c rest ih =>
    intro pend h
    have hc : specialChar c = false := h c (by simp)
    have h42 := (specialChar_components hc).1
    have hrest : ∀ c ∈ rest, specialChar c = false := fun c hm => h c (by simp [hm])
    simp [parsePatAux, h42, parseAtom_plain hc, ih (some (Atom.lit c)) hrest, flushPend]

theorem parsePat_plain (w : Chars) (h : ∀ c ∈ w, specialChar c = false) :
    parsePat w = some (w.map (fun c => Tok.atom (Atom.lit c))) := by
  unfold parsePat
  rw [parsePatAux_plain w none h]
  simp [flushPend]

theorem specialChar_toLower {c : Char} (h : specialChar c = false) :
    specialChar c.toLower = false := by
  simp only [Char.toLower]
  split
  · next h2 =>
    obtain ⟨h65, h90⟩ := h2
    generalize c.toNat = n at h65 h90 ⊢
    interval_cases n <;> decide
  · exact h

theorem mongoRegexMatchI_plain {q : String} (h : ∀ c ∈ q.data, specialChar c = false)
    (s : String) : mongoRegexMatchI q s = strContainsCI q s := by
  have hl : ∀ c ∈ lowerChars q.data, specialChar c = false := by
    intro c hc
    simp only [lowerChars, List.mem_map] at hc
    obtain ⟨c0, hc0, rfl⟩ := hc
    exact specialChar_toLower (h c0 hc0)
  unfold mongoRegexMatchI strContainsCI
  rw [parsePat_plain _ hl]
  rw [Bool.eq_iff_iff, searchFrom_lits, containsSub_iff]

theorem containsSub_nil_left (s : Chars) : containsSub [] s = true := by
  induction s with
  | nil => rfl
  | cons x xs ih => simp [containsSub, ih]

theorem strContainsCI_of_data_nil {q : String} (hq : q.data = []) (hay : String) :
    strContainsCI q hay = true := by
  unfold strContainsCI
  rw [hq]
  simpa [lowerChars] using containsSub_nil_left (lowerChars hay.data)

theorem strContainsCI_empty_hay {q : String} (hq : q.data ≠ []) :
    strContainsCI q "" = false := by
  unfold strContainsCI
  cases hd : q.data with
  | nil => exact absurd hd hq
  | cons c cs => simp [lowerChars, containsSub, List.isPrefixOf]

theorem matchFilter_plain {q : String} (h : ∀ c ∈ q.data, specialChar c = false)
    (d : StoredDoc) :
    matchFilter (credFilter (some q)) d =
      (strContainsCI q (d.title.getD "") || strContainsCI q (d.username.getD "")) := by
  by_cases hq : q.data = []
  · have ht : qTruthy (some q) = false := by simp [qTruthy, hq]
    simp [credFilter, ht, matchFilter, strContainsCI_of_data_nil hq]
  · have ht : qTruthy (some q) = true := by simp [qTruthy, hq]
    simp only [credFilter, ht, if_true, Option.getD_some]
    cases htitle : d.title with
    | some t =>
      cases husr : d.username with
      | some u => simp [matchFilter, htitle, husr, mongoRegexMatchI_plain h]
      | none => simp [matchFilter, htitle, husr, mongoRegexMatchI_plain h,
          strContainsCI_empty_hay hq]
    | none =>
      cases husr : d.username with
      | some u => simp [matchFilter, htitle, husr, mongoRegexMatchI_plain h,
          strContainsCI_empty_hay hq]
      | none => simp [matchFilter, htitle, husr, strContainsCI_empty_hay hq]

/-! ### Claim C1 -/

/-- C1 (counterexample): the claim "for every q that is a case-insensitive
substring of neither field, the credential is excluded" fails: the stored
credential has title "abc" and username "zzz", and q = "x*" is a
case-insensitive substring of neither, yet the list endpoint returns the
credential, because the filter treats q as a regular expression
(`x*` matches the empty string). -/
theorem list_filter_regex_not_substring_cex :
    strContainsCI "x*" "abc" = false ∧ strContainsCI "x*" "zzz" = false ∧
    list_credentials none
      ⟨[("credential",
         { _id := some "1", title := some "abc", username := some "zzz",
           password := some "p", url := none, note := none,
           created_at := none, updated_at := none })], 2⟩
      (some "x*")
    = Resp.ok [{ id := "1", title := "abc", username := "zzz", password := "p",
                 url := none, note := none, created_at := none, updated_at := none }] := by
  exact ⟨by decide, by decide, by decide⟩

/-- C1 (amended): for every query string q none of whose characters is a
regex metacharacter, the list endpoint's filter selects exactly the
stored documents whose title OR username contains q as a
case-insensitive substring; for q containing metacharacters the filter
performs regex matching instead, which can select documents containing
q in neither field. -/
theorem list_filter_plain_q_selects_exactly_substring_matches
    {q : String} (h : ∀ c ∈ q.data, specialChar c = false)
    (st : Store) (docs : List StoredDoc)
    (hdocs : get_documents none st "credential" (credFilter (some q)) = .ok docs)
    (d : StoredDoc) :
    d ∈ docs ↔ d ∈ collectionDocs st "credential" ∧
      (strContainsCI q (d.title.getD "") || strContainsCI q (d.username.getD "")) = true := by
  simp only [get_documents, Except.ok.injEq] at hdocs
  subst hdocs
  rw [List.mem_filter, matchFilter_plain h]

/-- Witness for the amended C1 at q = "git" over a one-document store. -/
theorem list_filter_plain_q_witness :
    ({ _id := some "1", title := some "GitHub", username := some "alice",
       password := some "p", url := none, note := none,
       created_at := none, updated_at := none : StoredDoc } ∈
       [{ _id := some "1", title := some "GitHub", username := some "alice",
          password := some "p", url := none, note := none,
          created_at := none, updated_at := none : StoredDoc }] ↔
     ({ _id := some "1", title := some "GitHub", username := some "alice",
        password := some "p", url := none, note := none,
        created_at := none, updated_at := none : StoredDoc } ∈
        collectionDocs
          ⟨[("credential",
             { _id := some "1", title := some "GitHub", username := some "alice",
               password := some "p", url := none, note := none,
               created_at := none, updated_at := none })], 2⟩ "credential" ∧
      (strContainsCI "git" ((some "GitHub").getD "") ||
       strContainsCI "git" ((some "alice").getD "")) = true)) := by
  exact list_filter_plain_q_selects_exactly_substring_matches
    (by decide)
    ⟨[("credential",
       { _id := some "1", title := some "GitHub", username := some "alice",
         password := some "p", url := none, note := none,
         created_at := none, updated_at := none })], 2⟩
    [{ _id := some "1", title := some "GitHub", username := some "alice",
       password := some "p", url := none, note := none,
       created_at := none, updated_at := none }]
    (by rfl)
    { _id := some "1", title := some "GitHub", username := some "alice",
      password := some "p", url := none, note := none,
      created_at := none, updated_at := none }

/-! ### Claims about the `to_out` mapping (C2, C3, C10) -/

theorem timestampOut_ok {v : Option TVal} {r : Option String}
    (h : timestampOut v = .ok r) : r = specTimestampText v := by
  cases v with
  | none =>
    simp only [timestampOut, Except.ok.injEq] at h
    simp [specTimestampText, ← h]
  | some tv =>
    cases tv with
    | dt t =>
      simp only [timestampOut, TVal.truthy, if_true, TVal.isoformatCall, Except.map,
        Except.ok.injEq] at h
      simp [specTimestampText, ← h]
    | raw s =>
      by_cases hs : s.data.isEmpty
      · simp only [timestampOut, TVal.truthy, hs, Bool.not_true, Bool.false_eq_true,
          if_false, Except.ok.injEq] at h
        simp [specTimestampText, ← h]
      · simp only [Bool.not_eq_true] at hs
        simp [timestampOut, TVal.truthy, hs, TVal.isoformatCall, Except.map] at h

/-- C2: whenever the list endpoint's `to_out` maps a raw document to a
`CredentialOut`, the output's title, username and password are the
stored text, defaulting to the empty string when unset, and url and
note pass through as stored-or-null; every `CredentialOut` field is
present by construction. -/
theorem to_out_required_fields_text_optional_fields_passthrough
    (d : StoredDoc) (out : CredentialOut) (h : to_out d = .ok out) :
    out.title = d.title.getD "" ∧ out.username = d.username.getD "" ∧
    out.password = d.password.getD "" ∧ out.url = d.url ∧ out.note = d.note := by
  unfold to_out at h
  cases hc : timestampOut d.created_at with
  | error e => rw [hc] at h; simp [Bind.bind, Except.bind] at h
  | ok created =>
    rw [hc] at h
    cases hu : timestampOut d.updated_at with
    | error e => rw [hu] at h; simp [Bind.bind, Except.bind] at h
    | ok updated =>
      rw [hu] at h
      simp only [Bind.bind, Except.bind, pure, Except.pure, Except.ok.injEq] at h
      subst h
      simp

/-- Witness for C2 at a document with unset title and password. -/
theorem to_out_fields_witness :
    ({ id := "1", title := "", username := "bob", password := "", url := some "u",
       note := none, created_at := none, updated_at := none } : CredentialOut).title
        = (none : Option String).getD "" ∧
    ({ id := "1", title := "", username := "bob", password := "", url := some "u",
       note := none, created_at := none, updated_at := none } : CredentialOut).username
        = (some "bob").getD "" ∧
    ({ id := "1", title := "", username := "bob", password := "", url := some "u",
       note := none, created_at := none, updated_at := none } : CredentialOut).password
        = (none : Option String).getD "" ∧
    ({ id := "1", title := "", username := "bob", password := "", url := some "u",
       note := none, created_at := none, updated_at := none } : CredentialOut).url
        = some "u" ∧
    ({ id := "1", title := "", username := "bob", password := "", url := some "u",
       note := none, created_at := none, updated_at := none } : CredentialOut).note
        = none := by
  exact to_out_required_fields_text_optional_fields_passthrough
    { _id := some "1", title := none, username := some "bob", password := none,
      url := some "u", note := none, created_at := none, updated_at := none }
    { id := "1", title := "", username := "bob", password := "", url := some "u",
      note := none, created_at := none, updated_at := none }
    (by rfl)

/-- C3 (counterexample): a document whose stored `created_at` is present
but not a decodable instant (here the text "2024-01-01") does not yield
a null timestamp: `to_out` raises, and the list endpoint turns that into
an HTTP 500 whose detail is the stringified `AttributeError`. -/
theorem to_out_malformed_timestamp_errors_cex :
    to_out { _id := some "1", title := some "t", username := some "u",
             password := some "p", url := none, note := none,
             created_at := some (TVal.raw "2024-01-01"), updated_at := none }
      = Except.error pyAttrErrMsg ∧
    list_credentials none
      ⟨[("credential",
         { _id := some "1", title := some "t", username := some "u",
           password := some "p", url := none, note := none,
           created_at := some (TVal.raw "2024-01-01"), updated_at := none })], 2⟩
      none
      = Resp.httpError 500 pyAttrErrMsg := by
  exact ⟨rfl, rfl⟩

/-- C3 (amended): the timestamp outputs are the ISO-8601 rendering of
the stored value when it is a decodable instant, and null when the
value is absent (or falsy); but a present, truthy, non-decodable stored
timestamp makes `to_out` raise an `AttributeError` — the list call then
fails with HTTP 500 — rather than yielding null. -/
theorem to_out_timestamps_iso_or_null_or_error (d : StoredDoc) :
    (∀ out, to_out d = .ok out →
      out.created_at = specTimestampText d.created_at ∧
      out.updated_at = specTimestampText d.updated_at) ∧
    (∀ s, d.created_at = some (TVal.raw s) → s.data ≠ [] →
      to_out d = .error pyAttrErrMsg) := by
  constructor
  · intro out h
    unfold to_out at h
    cases hc : timestampOut d.created_at with
    | error e => rw [hc] at h; simp [Bind.bind, Except.bind] at h
    | ok created =>
      rw [hc] at h
      cases hu : timestampOut d.updated_at with
      | error e => rw [hu] at h; simp [Bind.bind, Except.bind] at h
      | ok updated =>
        rw [hu] at h
        simp only [Bind.bind, Except.bind, pure, Except.pure, Except.ok.injEq] at h
        subst h
        exact ⟨timestampOut_ok hc, timestampOut_ok hu⟩

  · intro s hs hdata
    have htr : TVal.truthy (TVal.raw s) = true := by
      simp [TVal.truthy, hdata]
    unfold to_out
    rw [hs]
    simp [timestampOut, htr, TVal.isoformatCall, Except.map, Bind.bind, Except.bind]

/-- Witness for C3 at a document with one decodable instant and an
absent updated_at. -/
theorem to_out_timestamps_witness :
    (({ id := "1", title := "t", username := "u", password := "p", url := none,
        note := none, created_at := some "2024-03-07T09:05:30", updated_at := none }
        : CredentialOut).created_at
      = specTimestampText (some (TVal.dt ⟨2024, 3, 7, 9, 5, 30⟩)) ∧
     ({ id := "1", title := "t", username := "u", password := "p", url := none,
        note := none, created_at := some "2024-03-07T09:05:30", updated_at := none }
        : CredentialOut).updated_at
      = specTimestampText (none : Option TVal)) ∧
    to_out { _id := some "1", title := some "t", username := some "u",
             password := some "p", url := none, note := none,
             created_at := some (TVal.raw "x"), updated_at := none }
      = Except.error pyAttrErrMsg := by
  constructor
  · exact (to_out_timestamps_iso_or_null_or_error
      { _id := some "1", title := some "t", username := some "u", password := some "p",
        url := none, note := none,
        created_at := some (TVal.dt ⟨2024, 3, 7, 9, 5, 30⟩), updated_at := none }).1
      { id := "1", title := "t", username := "u", password := "p", url := none,
        note := none, created_at := some "2024-03-07T09:05:30", updated_at := none }
      (by rfl)
  · exact (to_out_timestamps_iso_or_null_or_error
      { _id := some "1", title := some "t", username := some "u", password := some "p",
        url := none, note := none,
        created_at := some (TVal.raw "x"), updated_at := none }).2
      "x" rfl (by decide)

/-- C10: the output identifier is the Python `str` rendering of the
stored `_id` — the identifier's own text when present — and the mapping
does not depend on `_id` for success: with `_id` absent it produces the
same outcome with the literal text "None" as id. -/
theorem to_out_id_total_str_rendering (d : StoredDoc) :
    (∀ out, to_out d = .ok out → out.id = pyStrOfOptId d._id) ∧
    to_out { d with _id := none }
      = (to_out d).map (fun o => { o with id := "None" }) := by
  obtain ⟨i, t, u, p, ur, no, ca, ua⟩ := d
  constructor
  · intro out h
    unfold to_out at h
    cases hc : timestampOut ca with
    | error e => rw [hc] at h; simp [Bind.bind, Except.bind] at h
    | ok created =>
      rw [hc] at h
      cases hu : timestampOut ua with
      | error e => rw [hu] at h; simp [Bind.bind, Except.bind] at h
      | ok updated =>
        rw [hu] at h
        simp only [Bind.bind, Except.bind, pure, Except.pure, Except.ok.injEq] at h
        subst h
        rfl
  · cases hc : timestampOut ca with
    | error e => simp [to_out, hc, Bind.bind, Except.bind, Except.map]
    | ok created =>
      cases hu : timestampOut ua with
      | error e => simp [to_out, hc, hu, Bind.bind, Except.bind, Except.map]
      | ok updated =>
        simp [to_out, hc, hu, Bind.bind, Except.bind, Except.map, pure, Except.pure,
          pyStrOfOptId]

/-- Witness for C10 at a document with absent `_id`. -/
theorem to_out_id_witness :
    (({ id := "None", title := "t", username := "u", password := "p", url := none,
        note := none, created_at := none, updated_at := none } : CredentialOut).id
      = pyStrOfOptId none) ∧
    to_out { _id := none, title := some "t", username := some "u", password := some "p",
             url := none, note := none, created_at := none, updated_at := none }
      = (to_out { _id := some "7", title := some "t", username := some "u",
                  password := some "p", url := none, note := none,
                  created_at := none, updated_at := none }).map
          (fun o => { o with id := "None" }) := by
  constructor
  · exact (to_out_id_total_str_rendering
      { _id := none, title := some "t", username := some "u", password := some "p",
        url := none, note := none, created_at := none, updated_at := none }).1
      { id := "None", title := "t", username := "u", password := "p", url := none,
        note := none, created_at := none, updated_at := none }
      (by rfl)
  · exact (to_out_id_total_str_rendering
      { _id := some "7", title := some "t", username := some "u", password := some "p",
        url := none, note := none, created_at := none, updated_at := none }).2

/-! ### Claims C4 and C7: the diagnostic endpoint -/

/-- C4: `GET /test` never fails hard — it is a total function of the
probe outcomes, always returning status 200 with the fixed-shape
payload; every internal error is folded into the `database` status
text with the error message truncated to 50 characters. -/
theorem test_database_never_fails_hard (st : DbState) (u n : Bool) :
    (test_database st u n).1 = 200 ∧
    (test_database st u n).2.backend = "✅ Running" ∧
    (∀ m, st = .importRaise m →
      (test_database st u n).2.database = "❌ Error: " ++ m.take 50) ∧
    (∀ nm m, st = .dbUp nm (.error m) →
      (test_database st u n).2.database = "⚠️  Connected but Error: " ++ m.take 50) ∧
    (st = .importError →
      (test_database st u n).2.database
        = "❌ Database module not found (run enable-database first)") := by
  refine ⟨rfl, ?_, ?_, ?_, ?_⟩
  · cases st with
    | importError => rfl
    | importRaise m => rfl
    | dbNone => rfl
    | dbUp nm colls => cases colls <;> rfl
  · intro m hm
    subst hm
    rfl
  · intro nm m hm
    subst hm
    rfl
  · intro hm
    subst hm
    rfl

/-- Witness for C4: a raised import-time error and a failing collection
listing, both folded into the status text (long message truncated). -/
theorem test_database_never_fails_hard_witness :
    (test_database (DbState.importRaise "boom") true false).1 = 200 ∧
    (test_database (DbState.importRaise "boom") true false).2.database
      = "❌ Error: " ++ ("boom").take 50 ∧
    (test_database (DbState.dbUp none (Except.error (String.mk (List.replicate 60 'e'))))
        false false).2.database
      = "⚠️  Connected but Error: " ++ (String.mk (List.replicate 60 'e')).take 50 := by
  refine ⟨(test_database_never_fails_hard (DbState.importRaise "boom") true false).1,
    (test_database_never_fails_hard (DbState.importRaise "boom") true false).2.2.1
      "boom" rfl,
    (test_database_never_fails_hard
        (DbState.dbUp none (Except.error (String.mk (List.replicate 60 'e')))) false
        false).2.2.2.1
      none (String.mk (List.replicate 60 'e')) rfl⟩

/-- C7: the `collections` field of `GET /test` holds at most 10 names —
the first 10 listed by the store when listing succeeds — and is the
empty sequence in every other probe outcome (module missing, import
error, handle absent, listing raising). -/
theorem test_database_collections_at_most_ten (st : DbState) (u n : Bool) :
    (test_database st u n).2.collections.length ≤ 10 ∧
    (∀ nm cs, st = .dbUp nm (.ok cs) →
      (test_database st u n).2.collections = cs.take 10) ∧
    ((∀ nm cs, st ≠ .dbUp nm (.ok cs)) →
      (test_database st u n).2.collections = []) := by
  refine ⟨?_, ?_, ?_⟩
  · cases st with
    | importError => simp [test_database]
    | importRaise m => simp [test_database]
    | dbNone => simp [test_database]
    | dbUp nm colls =>
      cases colls with
      | ok cs => simp [test_database]
      | error m => simp [test_database]
  · intro nm cs hm
    subst hm
    rfl
  · intro hne
    cases st with
    | importError => rfl
    | importRaise m => rfl
    | dbNone => rfl
    | dbUp nm colls =>
      cases colls with
      | ok cs => exact absurd rfl (hne nm cs)
      | error m => rfl

/-- Witness for C7: a successful listing of twelve names is truncated
to the first ten; a missing module yields the empty sequence. -/
theorem test_database_collections_witness :
    (test_database
        (DbState.dbUp (some "db")
          (Except.ok ["c1", "c2", "c3", "c4", "c5", "c6", "c7", "c8", "c9", "c10",
            "c11", "c12"])) true true).2.collections
      = ["c1", "c2", "c3", "c4", "c5", "c6", "c7", "c8", "c9", "c10", "c11",
          "c12"].take 10 ∧
    (test_database DbState.importError false false).2.collections = [] := by
  refine ⟨(test_database_collections_at_most_ten
      (DbState.dbUp (some "db")
        (Except.ok ["c1", "c2", "c3", "c4", "c5", "c6", "c7", "c8", "c9", "c10",
          "c11", "c12"])) true true).2.1 (some "db")
      ["c1", "c2", "c3", "c4", "c5", "c6", "c7", "c8", "c9", "c10", "c11", "c12"] rfl,
    (test_database_collections_at_most_ten DbState.importError false false).2.2
      (fun nm cs h => DbState.noConfusion h)⟩

/-! ### Claims C5 and C6: the create endpoint and store failures -/

/-- C5: a successful `POST /api/credentials` appends exactly one new
document to the "credential" collection — the serialized payload under
the store-assigned identifier — and returns, with success status, an
object holding only that identifier as text. -/
theorem create_credential_inserts_one_and_returns_id (st : Store) (cred : Credential) :
    create_credential none st cred
      = ({ docs := st.docs ++ [("credential", docOfCredential (toString st.nextId) cred)],
           nextId := st.nextId + 1 },
         Resp.ok { id := toString st.nextId }) ∧
    collectionDocs (create_credential none st cred).1 "credential"
      = collectionDocs st "credential" ++ [docOfCredential (toString st.nextId) cred] ∧
    (create_credential none st cred).2.statusCode = 200 := by
  refine ⟨rfl, ?_, rfl⟩
  simp [create_credential, create_document, collectionDocs, List.filter_append]

/-- C6: every store exception during create or list yields HTTP 500
with the stringified exception as detail; a failed create leaves the
store unchanged, so any later list observes exactly the state from
before the call. -/
theorem store_failure_yields_500_and_unchanged_state (m : String) (st : Store)
    (cred : Credential) (q : Option String) (storeFail2 : Option String) :
    create_credential (some m) st cred = (st, Resp.httpError 500 m) ∧
    list_credentials (some m) st q = Resp.httpError 500 m ∧
    list_credentials storeFail2 (create_credential (some m) st cred).1 q
      = list_credentials storeFail2 st q := by
  exact ⟨rfl, rfl, rfl⟩

/-! ### Claim C8: the greeting endpoints -/

/-- C8: `GET /` and `GET /api/hello` return their fixed payloads with
status 200 on every invocation. -/
theorem greeting_endpoints_fixed_payloads :
    read_root = Resp.ok { message := "Hello from FastAPI Backend!" } ∧
    hello = Resp.ok { message := "Hello from the backend API!" } ∧
    read_root.statusCode = 200 ∧ hello.statusCode = 200 :=
  ⟨rfl, rfl, rfl, rfl⟩

/-! ### Claim C9: empty q is the same as absent q -/

/-- C9: listing with `q` equal to the empty string is the same call as
listing with `q` absent: both build the empty (match-all) filter, under
which the store returns every document of the "credential" collection. -/
theorem list_empty_q_equals_absent_q (storeFail : Option String) (st : Store) :
    list_credentials storeFail st (some "") = list_credentials storeFail st none ∧
    get_documents none st "credential" (credFilter (some ""))
      = .ok (collectionDocs st "credential") ∧
    get_documents none st "credential" (credFilter none)
      = .ok (collectionDocs st "credential") := by
  have hall : matchFilter Filter.all = fun _ => true := rfl
  refine ⟨rfl, ?_, ?_⟩
  · show Except.ok ((collectionDocs st "credential").filter (matchFilter Filter.all)) = _
    rw [hall, List.filter_true]
  · show Except.ok ((collectionDocs st "credential").filter (matchFilter Filter.all)) = _
    rw [hall, List.filter_true]

end CredService
